import Mathlib

/-!
Verification of the guardian-articles lambda pipeline (src/lambda_handler.py).

The Python module is embedded shallowly: every external effect (the S3 object
holding the daily request counter, the secrets-manager lookup, the HTTP search
request, per-URL preview fetches, SQS sends, environment variables) is passed
in explicitly as data or as an oracle function, and each Python function
becomes a total Lean function over those inputs.  Python exceptions become an
explicit `Except PyExn` result; Python truthiness of the values that the code
tests with `if not x` is modelled by `pyTruthy` / `Option` / emptiness checks
matching the concrete types that can occur at each site.
-/

/-- Exceptions raised by the module: `ValueError` (invalid search term, bad SQS
url), `GuardianAPIError`, `NoArticlesFoundError`, and transport exceptions
raised by the AWS SDK or requests during an SQS send. -/
inductive PyExn where
  | valueError (msg : String)
  | guardianAPIError (msg : String)
  | noArticlesFoundError (msg : String)
  | requestExn (msg : String)
  deriving Repr, DecidableEq

/-- The JSON object `api_request_tracker.json` stored in the config bucket:
`{"date": ..., "count": ...}`. -/
structure TrackingData where
  date : String
  count : Nat
  deriving Repr, DecidableEq

/-- Result of one run of `api_request_count`: the returned boolean, and the
object written by `put_object` when a write happens (`none` means the function
returned without writing anything back to the store). -/
structure BudgetStepResult where
  permitted : Bool
  putObject : Option TrackingData
  deriving Repr, DecidableEq

/-- `api_request_count` (lambda_handler.py lines 269-319).  `stored` is the
current content of `api_request_tracker.json` in the bucket (`none` models the
`NoSuchKey` case), `today` is `str(datetime.date.today())`.  The body reads the
tracker, resets it when the stored date is not today, refuses when the count
has reached 50 without writing, and otherwise increments, writes and
permits. -/
def api_request_count (today : String) (stored : Option TrackingData) : BudgetStepResult :=
  let tracking0 : TrackingData :=
    match stored with
    | none => { date := today, count := 0 }
    | some t => t
  let tracking1 : TrackingData :=
    if tracking0.date ≠ today then { date := today, count := 0 }
    else tracking0
  if tracking1.count ≥ 50 then { permitted := false, putObject := none }
  else { permitted := true, putObject := some { tracking1 with count := tracking1.count + 1 } }

/-- Content of the tracker object after `n` sequential calls of
`api_request_count` on the same date, starting from store content `start`:
a call that performs `put_object` replaces the object, a refused call leaves
the store unchanged. -/
def budgetStore (today : String) (start : Option TrackingData) : Nat → Option TrackingData
  | 0 => start
  | n + 1 =>
    match (api_request_count today (budgetStore today start n)).putObject with
    | some t => some t
    | none => budgetStore today start n

/-- Result of the `(n+1)`-st sequential call of `api_request_count` (0-indexed:
`budgetCall today start 0` is the first call). -/
def budgetCall (today : String) (start : Option TrackingData) (n : Nat) : BudgetStepResult :=
  api_request_count today (budgetStore today start n)

lemma api_request_count_same_date (today : String) (t : TrackingData) (hd : t.date = today) :
    api_request_count today (some t) =
      (if t.count ≥ 50 then { permitted := false, putObject := none }
       else { permitted := true, putObject := some { t with count := t.count + 1 } }) := by
  simp [api_request_count, hd]

lemma api_request_count_start (today : String) (start : Option TrackingData)
    (hs : start = none ∨ start = some { date := today, count := 0 }) :
    api_request_count today start =
      { permitted := true, putObject := some { date := today, count := 1 } } := by
  rcases hs with h | h <;> subst h <;> simp [api_request_count]

lemma budgetStore_succ_eq (today : String) (start : Option TrackingData)
    (hs : start = none ∨ start = some { date := today, count := 0 }) (n : Nat) :
    budgetStore today start (n + 1) = some { date := today, count := min (n + 1) 50 } := by
  induction n with
  | zero =>
    simp [budgetStore, api_request_count_start today start hs]
  | succ k ih =>
    show (match (api_request_count today (budgetStore today start (k + 1))).putObject with
      | some t => some t
      | none => budgetStore today start (k + 1)) =
        some { date := today, count := min (k + 2) 50 }
    rw [ih, api_request_count_same_date today _ rfl]
    by_cases hk : k + 1 ≥ 50
    · have h50 : min (k + 1) 50 = 50 := min_eq_right (by omega)
      have h50' : min (k + 2) 50 = 50 := min_eq_right (by omega)
      rw [h50, h50', if_pos (by omega : (50 : Nat) ≥ 50)]
    · have h1 : min (k + 1) 50 = k + 1 := min_eq_left (by omega)
      have h2 : min (k + 2) 50 = k + 2 := min_eq_left (by omega)
      rw [h1, h2, if_neg (by omega : ¬ k + 1 ≥ 50)]

lemma budgetCall_permitted (today : String) (start : Option TrackingData)
    (hs : start = none ∨ start = some { date := today, count := 0 }) (n : Nat) :
    (budgetCall today start n).permitted = decide (n < 50) := by
  cases n with
  | zero =>
    simp [budgetCall, budgetStore, api_request_count_start today start hs]
  | succ k =>
    rw [budgetCall, budgetStore_succ_eq today start hs k,
      api_request_count_same_date today _ rfl]
    by_cases hk : min (k + 1) 50 ≥ 50
    · have : ¬ (k + 1 < 50) := by
        intro hlt
        rw [min_eq_left (by omega)] at hk
        omega
      simp [hk, this]
    · have hlt : k + 1 < 50 := by
        rcases lt_or_ge (k + 1) 50 with h | h
        · exact h
        · exact absurd (by simp [min_eq_right h]) hk
      simp [hk, hlt]

/-- C1: starting from an absent tracker object or a stored `{today, 0}`, with
calls numbered from 0, each of the first 50 sequential calls of
`api_request_count` on the same date returns true and every call from the 51st
on returns false; and whenever the stored count for today is already at least
50 the call returns false and performs no write to the store. -/
theorem api_request_count_cap_behaviour (today : String) (start : Option TrackingData)
    (hs : start = none ∨ start = some { date := today, count := 0 }) (n : Nat) :
    ((n < 50 → (budgetCall today start n).permitted = true) ∧
      (50 ≤ n → (budgetCall today start n).permitted = false)) ∧
    (∀ t : TrackingData, t.date = today → 50 ≤ t.count →
      api_request_count today (some t) = { permitted := false, putObject := none }) := by
  refine ⟨⟨fun h => ?_, fun h => ?_⟩, fun t hd hc => ?_⟩
  · rw [budgetCall_permitted today start hs n]; simpa using h
  · rw [budgetCall_permitted today start hs n]; simpa using by omega
  · rw [api_request_count_same_date today t hd]; simp [hc]

/-- Witness for C1 at concrete inputs: the 3rd, 50th and 51st calls starting
from an empty store, and a stored count of 50. -/
theorem api_request_count_cap_behaviour_witness :
    (budgetCall "2025-10-12" none 2).permitted = true ∧
    (budgetCall "2025-10-12" none 49).permitted = true ∧
    (budgetCall "2025-10-12" none 50).permitted = false ∧
    api_request_count "2025-10-12" (some { date := "2025-10-12", count := 50 }) =
      { permitted := false, putObject := none } := by
  refine ⟨?_, ?_, ?_, ?_⟩
  · exact ((api_request_count_cap_behaviour "2025-10-12" none (Or.inl rfl) 2).1).1 (by omega)
  · exact ((api_request_count_cap_behaviour "2025-10-12" none (Or.inl rfl) 49).1).1 (by omega)
  · exact ((api_request_count_cap_behaviour "2025-10-12" none (Or.inl rfl) 50).1).2 (by omega)
  · exact (api_request_count_cap_behaviour "2025-10-12" none (Or.inl rfl) 0).2
      { date := "2025-10-12", count := 50 } rfl (by decide)

/-- C2: on the first call of a new date, any stored tracker whose date differs
from today is discarded whatever its count was; the call returns true and
writes `{date: today, count: 1}`. -/
theorem api_request_count_rollover (today : String) (prior : TrackingData)
    (h : prior.date ≠ today) :
    api_request_count today (some prior) =
      { permitted := true, putObject := some { date := today, count := 1 } } := by
  simp [api_request_count, h]

/-- Witness for C2: a stored count of 99 from the previous date is discarded. -/
theorem api_request_count_rollover_witness :
    api_request_count "2025-10-12" (some { date := "2025-10-11", count := 99 }) =
      { permitted := true, putObject := some { date := "2025-10-12", count := 1 } } :=
  api_request_count_rollover "2025-10-12" { date := "2025-10-11", count := 99 } (by decide)

/-- Python value as it can appear at the sites modelled here: `None`, a string,
or a JSON object decoded to a mapping with string values (the shape the stored
Guardian secret takes). -/
inductive PyVal where
  | pyNone
  | pyStr (s : String)
  | pyDict (kvs : List (String × String))
  deriving Repr, DecidableEq

/-- Python truthiness of a `PyVal`: `None`, the empty string and the empty
mapping are falsy, everything else truthy.  This is what an `if not x` test on
such a value computes. -/
def pyTruthy : PyVal → Bool
  | .pyNone => false
  | .pyStr s => !(s == "")
  | .pyDict kvs => !kvs.isEmpty

/-- Python `str.strip()` (and BeautifulSoup `get_text(strip=True)`): drop
leading and trailing whitespace characters. -/
def pyStrip (s : String) : String :=
  ⟨((s.data.dropWhile Char.isWhitespace).reverse.dropWhile Char.isWhitespace).reverse⟩

/-- Python `" ".join(xs)`: concatenation with single-space separators. -/
def joinSpace : List String → String
  | [] => ""
  | [x] => x
  | x :: rest => x ++ " " ++ joinSpace rest

/-- Python string slicing `s[:n]`: the first `n` characters of `s`. -/
def pySlice (s : String) (n : Nat) : String :=
  ⟨s.data.take n⟩

/-- Outcome of the `secretsmanager.get_secret_value` call made by
`get_guardian_api_key`: success with the `SecretString` payload, a botocore
`ClientError` (secret not found or access denied), a `NoCredentialsError`, or
any other exception with its message. -/
inductive SecretFetch where
  | success (secretString : String)
  | clientError
  | noCredentials
  | otherError (msg : String)
  deriving Repr, DecidableEq

/-- `get_guardian_api_key` (lambda_handler.py lines 66-101).  `jsonLoads`
models `json.loads`: `some v` when the payload decodes, `none` when a
`JSONDecodeError` is raised (in which case the raw string is returned
unchanged).  Every failure branch returns a descriptive string instead of
raising. -/
def get_guardian_api_key (jsonLoads : String → Option PyVal) (fetch : SecretFetch) : PyVal :=
  match fetch with
  | .success secret_str =>
    match jsonLoads secret_str with
    | some v => v
    | none => .pyStr secret_str
  | .clientError => .pyStr "There has been Client Error: ResourceNotFound"
  | .noCredentials => .pyStr "No credentials has been found."
  | .otherError e => .pyStr ("There has been an unexpected error: " ++ e)

/-- One raw article dictionary from the Guardian response, restricted to the
keys the module reads via `.get`; a key mapped to `none` models an absent key
(`.get` returns `None`). -/
structure RawArticle where
  webPublicationDate : Option String
  webTitle : Option String
  webUrl : Option String
  deriving Repr, DecidableEq

/-- Body of a 200 search response after `response.json()`: either the expected
envelope `{response: {results: [...]}}`, or a body in which `'response'` or
`'results'` is missing. -/
inductive RespBody where
  | wellFormed (results : List RawArticle)
  | malformed
  deriving Repr, DecidableEq

/-- Outcome of the `requests.get` call against the search endpoint: a 200
response with a JSON body, a non-2xx status (so that `raise_for_status`
raises), a `Timeout`, a `ConnectionError`, or any other exception. -/
inductive SearchHttp where
  | ok (body : RespBody)
  | statusError (msg : String)
  | timeoutExn (msg : String)
  | connExn (msg : String)
  | otherExn (msg : String)
  deriving Repr, DecidableEq

/-- Query parameters of the search request as built at lambda_handler.py lines
139-145; in particular the resolved credential is passed verbatim as the
`api-key` parameter. -/
structure RequestParams where
  q : String
  fromDate : Option String
  apiKey : PyVal
  page_size : Nat
  orderBy : String
  deriving Repr, DecidableEq

/-- Lambda environment variables read by the module. -/
structure Env where
  SECRET_NAME : Option String
  SQS_QUEUE_URL : Option String
  SEARCH_TERM : Option String
  deriving Repr, DecidableEq

/-- `extract_guardian_articles` (lambda_handler.py lines 105-175).  The first
component is the returned article list or the raised exception; the second is
the search request that was issued (`none` when the function failed before
`requests.get`).  `search_term` is `none` when the caller passed `None` (the
`isinstance(search_term, str)` test fails).  The `GuardianAPIError` raised for
a malformed envelope inside the `try` block is caught by the trailing
`except Exception` and re-raised with an `Exception: ` message prefix. -/
def extract_guardian_articles (env : Env) (jsonLoads : String → Option PyVal)
    (fetchSecret : SecretFetch) (httpResult : SearchHttp)
    (search_term : Option String) (date_from : Option String) :
    Except PyExn (List RawArticle) × Option RequestParams :=
  match search_term with
  | none => (.error (.valueError "Invalid search_term or it must not be empty!"), none)
  | some term =>
    if pyStrip term = "" then
      (.error (.valueError "Invalid search_term or it must not be empty!"), none)
    else
      match env.SECRET_NAME with
      | none => (.error (.guardianAPIError "It must not be an empty secret name!"), none)
      | some sn =>
        if sn = "" then
          (.error (.guardianAPIError "It must not be an empty secret name!"), none)
        else
          let guardian_api_key := get_guardian_api_key jsonLoads fetchSecret
          if pyTruthy guardian_api_key = false then
            (.error (.guardianAPIError "Unable to fetch API KEY, check secret_name!"), none)
          else
            let params : RequestParams :=
              { q := term, fromDate := date_from, apiKey := guardian_api_key,
                page_size := 10, orderBy := "newest" }
            match httpResult with
            | .ok (.wellFormed results) => (.ok results, some params)
            | .ok .malformed =>
              (.error (.guardianAPIError "Exception: Unexcepted API response"), some params)
            | .statusError m => (.error (.guardianAPIError ("Exception: " ++ m)), some params)
            | .timeoutExn m =>
              (.error (.guardianAPIError ("Raise Timeout Error: " ++ m)), some params)
            | .connExn m => (.error (.guardianAPIError ("Connection Error: " ++ m)), some params)
            | .otherExn m => (.error (.guardianAPIError ("Exception: " ++ m)), some params)

/-- Outcome of the inner `requests.get` + BeautifulSoup pass of
`get_content_preview`: on success, the list of `get_text(strip=True)` texts of
the `<p>` tags found in the page (empty when the page has no `<p>` tags); on a
`requests.exceptions.RequestException`, its message. -/
inductive FetchOutcome where
  | ok (paragraphs : List String)
  | requestExn (msg : String)
  deriving Repr, DecidableEq

/-- `get_content_preview` (lambda_handler.py lines 323-350).  Paragraph texts
are stripped, joined with single spaces, and the result is hard-truncated to
`max_length` characters; an empty joined string yields the fixed placeholder,
and a transport failure yields a placeholder embedding the failure message.
The function is total: it never propagates an exception. -/
def get_content_preview (fetch : FetchOutcome) (max_length : Nat) : String :=
  match fetch with
  | .requestExn e => "Content fetching error: " ++ e
  | .ok contents =>
    let content_preview := joinSpace (contents.map pyStrip)
    if content_preview = "" then "No content is avaiable!"
    else pySlice content_preview max_length

/-- Outcome of one `get_content_preview(webUrl)` call as seen by
`processed_guardian_articles`: its returned string, or an exception it raised
(caught there and replaced by a fallback preview). -/
inductive PreviewOutcome where
  | ok (s : String)
  | exn (msg : String)
  deriving Repr, DecidableEq

/-- One processed article dictionary as appended by
`processed_guardian_articles`; `webUrl` is a plain string because only truthy
urls reach the append. -/
structure PublishedRecord where
  webPublicationDate : Option String
  webTitle : Option String
  webUrl : String
  content_preview : String
  deriving Repr, DecidableEq

/-- `processed_guardian_articles` (lambda_handler.py lines 179-224).  The bare
`except:` around the extraction call turns every exception from
`extract_guardian_articles` into an empty result list; articles whose
`webUrl` is absent or falsy are skipped; a preview exception is replaced by
the fallback preview text.  `previewOf` is the per-url preview oracle. -/
def processed_guardian_articles (env : Env) (jsonLoads : String → Option PyVal)
    (fetchSecret : SecretFetch) (httpResult : SearchHttp)
    (previewOf : String → PreviewOutcome) (get_search_term : Option String)
    (date_from : Option String) : List PublishedRecord :=
  match (extract_guardian_articles env jsonLoads fetchSecret httpResult
      get_search_term date_from).fst with
  | .error _ => []
  | .ok articles =>
    articles.filterMap fun article =>
      match article.webUrl with
      | none => none
      | some webUrl =>
        if webUrl = "" then none
        else
          let content_preview :=
            match previewOf webUrl with
            | .ok s => s
            | .exn _ => "Content preview is not avaiable."
          some { webPublicationDate := article.webPublicationDate,
                 webTitle := article.webTitle,
                 webUrl := webUrl,
                 content_preview := content_preview }

/-- Sequential send loop of `send_to_sqs`: sends one message per article and
re-raises the first transport exception unchanged, aborting the remaining
sends.  The second component counts the `send_message` calls attempted. -/
def sendLoop (send : PublishedRecord → Except PyExn String) :
    List PublishedRecord → Except PyExn Unit × Nat
  | [] => (.ok (), 0)
  | article :: rest =>
    match send article with
    | .error e => (.error e, 1)
    | .ok _ =>
      let r := sendLoop send rest
      (r.fst, r.snd + 1)

/-- `send_to_sqs` (lambda_handler.py lines 228-265).  The queue-url check runs
first and raises `ValueError` when `SQS_QUEUE_URL` is unset, empty or blank;
then the articles argument is checked and `NoArticlesFoundError` is raised
when it is `None` or an empty list; only then are messages sent one by one.
The second component counts attempted sends. -/
def send_to_sqs (queue_url : Option String) (send : PublishedRecord → Except PyExn String)
    (articles : Option (List PublishedRecord)) : Except PyExn Unit × Nat :=
  match queue_url with
  | none => (.error (.valueError "SQS URL may not be set in environment or not availabe."), 0)
  | some q =>
    if pyStrip q = "" then
      (.error (.valueError "SQS URL may not be set in environment or not availabe."), 0)
    else
      match articles with
      | none =>
        (.error (.noArticlesFoundError
          "Articles must be a list of dictionaries and must not be empty!"), 0)
      | some [] =>
        (.error (.noArticlesFoundError
          "Articles must be a list of dictionaries and must not be empty!"), 0)
      | some arts => sendLoop send arts

/-- Structured result value returned by `lambda_handler` on its two
non-raising paths. -/
structure HandlerResult where
  status_code : Nat
  message : String
  success : Bool
  deriving Repr, DecidableEq

/-- Observable outcome of one `lambda_handler` invocation: the returned value
or raised exception, and whether the article-fetch path
(`processed_guardian_articles`) and the publish path (`send_to_sqs`) were
entered at all. -/
structure HandlerOutcome where
  result : Except PyExn HandlerResult
  searchAttempted : Bool
  publishAttempted : Bool
  deriving Repr

/-- `lambda_handler` (lambda_handler.py lines 32-62).  When
`api_request_count` refuses, the 429 result value is returned and neither the
source client nor the publisher runs; when the processed list is empty,
`NoArticlesFoundError` is raised before any publish; otherwise the records go
to `send_to_sqs` and the 200 result is returned (or the send exception
propagates). -/
def lambda_handler (today : String) (stored : Option TrackingData) (env : Env)
    (jsonLoads : String → Option PyVal) (fetchSecret : SecretFetch)
    (httpResult : SearchHttp) (previewOf : String → PreviewOutcome)
    (send : PublishedRecord → Except PyExn String) : HandlerOutcome :=
  if !(api_request_count today stored).permitted then
    { result := .ok { status_code := 429,
                      message := "API Request calls has been reached for Today.",
                      success := false },
      searchAttempted := false, publishAttempted := false }
  else
    let articles := processed_guardian_articles env jsonLoads fetchSecret httpResult
      previewOf env.SEARCH_TERM none
    if articles.isEmpty then
      { result := .error (.noArticlesFoundError "No articles found or unable to fetched !"),
        searchAttempted := true, publishAttempted := false }
    else
      let sendResult := send_to_sqs env.SQS_QUEUE_URL send (some articles)
      { result :=
          match sendResult.fst with
          | .error e => .error e
          | .ok _ =>
            .ok { status_code := 200,
                  message := "Successfylly processed and sent " ++ toString articles.length
                    ++ " articles to SQS.",
                  success := true },
        searchAttempted := true, publishAttempted := true }

/-- Concrete `json.loads` oracle that always raises `JSONDecodeError`, so the
raw secret string is returned unchanged. -/
def jlRaw : String → Option PyVal := fun _ => none

/-- Concrete preview oracle returning a fixed preview text for every url. -/
def pvFixed : String → PreviewOutcome := fun _ => .ok "preview text"

/-- Concrete SQS send oracle that always succeeds with a fixed message id. -/
def sendOk : PublishedRecord → Except PyExn String := fun _ => .ok "123456"

/-- Environment whose `SEARCH_TERM` is the empty string (the input-validation
failure input); secret name and queue url are set. -/
def envBlankTerm : Env :=
  { SECRET_NAME := some "GuardianAPIKey",
    SQS_QUEUE_URL := some "https://sqs.eu-west-2.amazonaws.com/123456789012/MyQueue",
    SEARCH_TERM := some "" }

/-- Environment with all variables set to valid values. -/
def envValid : Env :=
  { SECRET_NAME := some "GuardianAPIKey",
    SQS_QUEUE_URL := some "https://sqs.eu-west-2.amazonaws.com/123456789012/MyQueue",
    SEARCH_TERM := some "machine learning" }

/-- Raw article that has a title but no `webUrl` key. -/
def artNoUrl : RawArticle :=
  { webPublicationDate := none, webTitle := some "x", webUrl := none }

/-- Raw article with a title and a usable `webUrl`. -/
def artWithUrl : RawArticle :=
  { webPublicationDate := none, webTitle := some "y", webUrl := some "https://u" }

/-- C3 counterexample: with a blank search term the source client raises the
input-validation ValueError, yet the orchestrator path does not propagate it:
`processed_guardian_articles` swallows it into an empty list and the
invocation fails with `NoArticlesFoundError` instead of the original error. -/
theorem source_error_propagation_cex :
    (extract_guardian_articles envBlankTerm jlRaw (.success "key") (.ok (.wellFormed []))
        (some "") none).fst =
      .error (.valueError "Invalid search_term or it must not be empty!") ∧
    processed_guardian_articles envBlankTerm jlRaw (.success "key") (.ok (.wellFormed []))
        pvFixed (some "") none = [] ∧
    (lambda_handler "2025-10-12" none envBlankTerm jlRaw (.success "key")
        (.ok (.wellFormed [])) pvFixed sendOk).result =
      .error (.noArticlesFoundError "No articles found or unable to fetched !") :=
  ⟨rfl, rfl, rfl⟩

/-- C3 amended: InputValidationError and ConfigurationError are raised
immediately by the source client, but the orchestrator path converts every
source-client exception into zero articles (the bare `except:` in
`processed_guardian_articles`); when the budget permits, the invocation then
fails with `NoArticlesFoundError`, never with the original error. -/
theorem source_errors_soft_failed (env : Env) (jl : String → Option PyVal)
    (fs : SecretFetch) (hr : SearchHttp) (pv : String → PreviewOutcome)
    (send : PublishedRecord → Except PyExn String) (today : String)
    (stored : Option TrackingData) (e : PyExn)
    (hx : (extract_guardian_articles env jl fs hr env.SEARCH_TERM none).fst = .error e)
    (hb : (api_request_count today stored).permitted = true) :
    processed_guardian_articles env jl fs hr pv env.SEARCH_TERM none = [] ∧
    (lambda_handler today stored env jl fs hr pv send).result =
      .error (.noArticlesFoundError "No articles found or unable to fetched !") := by
  have hp : processed_guardian_articles env jl fs hr pv env.SEARCH_TERM none = [] := by
    unfold processed_guardian_articles
    rw [hx]
  refine ⟨hp, ?_⟩
  unfold lambda_handler
  rw [hb]
  simp [hp]

/-- Witness for the amended C3: a source-client ConfigurationError-path input
(blank search term raising ValueError) is soft-failed at a permitted budget. -/
theorem source_errors_soft_failed_witness :
    processed_guardian_articles envBlankTerm jlRaw .clientError (.ok .malformed) pvFixed
      envBlankTerm.SEARCH_TERM none = [] ∧
    (lambda_handler "2025-10-12" none envBlankTerm jlRaw .clientError (.ok .malformed)
        pvFixed sendOk).result =
      .error (.noArticlesFoundError "No articles found or unable to fetched !") :=
  source_errors_soft_failed envBlankTerm jlRaw .clientError (.ok .malformed) pvFixed sendOk
    "2025-10-12" none (.valueError "Invalid search_term or it must not be empty!") rfl rfl

/-- C4 counterexample: the Credential Resolver fails with a ClientError, yet
search does not fail with an authentication error before issuing the request:
the request is issued with the resolver failure message as the api-key, and
with a well-formed response the articles are returned successfully. -/
theorem resolver_failure_auth_cex :
    extract_guardian_articles envValid jlRaw .clientError (.ok (.wellFormed [artWithUrl]))
        (some "machine learning") none =
      (.ok [artWithUrl],
        some { q := "machine learning", fromDate := none,
               apiKey := .pyStr "There has been Client Error: ResourceNotFound",
               page_size := 10, orderBy := "newest" }) :=
  rfl

/-- C4 amended: with a valid search term and secret name, search fails with
the authentication GuardianAPIError before issuing the request exactly when
the resolved credential value is falsy; every resolver failure branch yields a
truthy string, so on resolver failure the request is issued carrying the
failure string as the api-key parameter. -/
theorem auth_error_iff_falsy_key (env : Env) (jl : String → Option PyVal)
    (fs : SecretFetch) (hr : SearchHttp) (term : String) (d : Option String)
    (sn : String) (hterm : ¬ pyStrip term = "") (hsn : env.SECRET_NAME = some sn)
    (hsn2 : ¬ sn = "") :
    (pyTruthy (get_guardian_api_key jl fs) = false →
      extract_guardian_articles env jl fs hr (some term) d =
        (.error (.guardianAPIError "Unable to fetch API KEY, check secret_name!"), none)) ∧
    (pyTruthy (get_guardian_api_key jl fs) = true →
      (extract_guardian_articles env jl fs hr (some term) d).snd =
        some { q := term, fromDate := d, apiKey := get_guardian_api_key jl fs,
               page_size := 10, orderBy := "newest" }) ∧
    ((∀ s, fs ≠ .success s) → pyTruthy (get_guardian_api_key jl fs) = true) := by
  refine ⟨fun hf => ?_, fun ht => ?_, fun hfail => ?_⟩
  · simp [extract_guardian_articles, hsn, hterm, hsn2, hf]
  · simp only [extract_guardian_articles, hsn, hterm, hsn2, ht, if_neg, Bool.true_eq_false,
      if_false]
    cases hr with
    | ok body => cases body <;> rfl
    | statusError m => rfl
    | timeoutExn m => rfl
    | connExn m => rfl
    | otherExn m => rfl
  · cases fs with
    | success s => exact absurd rfl (hfail s)
    | clientError =>
      show pyTruthy (.pyStr "There has been Client Error: ResourceNotFound") = true
      decide
    | noCredentials =>
      show pyTruthy (.pyStr "No credentials has been found.") = true
      decide
    | otherError e =>
      show pyTruthy (.pyStr ("There has been an unexpected error: " ++ e)) = true
      have hne : "There has been an unexpected error: " ++ e ≠ "" := by
        intro hc
        have hd : "There has been an unexpected error: ".data ++ e.data = "".data :=
          congrArg String.data hc
        have h1 := congrArg List.length hd
        rw [List.length_append] at h1
        simp at h1
      show !(("There has been an unexpected error: " ++ e) == "") = true
      rw [beq_eq_false_iff_ne.mpr hne]
      rfl

/-- Witness for the amended C4: resolver failure with missing credentials
leaves the request issued with a truthy api-key, and an empty resolved secret
triggers the authentication failure without a request. -/
theorem auth_error_iff_falsy_key_witness :
    pyTruthy (get_guardian_api_key jlRaw .noCredentials) = true ∧
    (extract_guardian_articles envValid jlRaw .noCredentials (.ok (.wellFormed []))
        (some "machine learning") none).snd =
      some { q := "machine learning", fromDate := none,
             apiKey := get_guardian_api_key jlRaw .noCredentials,
             page_size := 10, orderBy := "newest" } ∧
    extract_guardian_articles envValid jlRaw (.success "") (.ok (.wellFormed []))
        (some "machine learning") none =
      (.error (.guardianAPIError "Unable to fetch API KEY, check secret_name!"), none) := by
  have h := auth_error_iff_falsy_key envValid jlRaw .noCredentials (.ok (.wellFormed []))
    "machine learning" none "GuardianAPIKey" (by decide) rfl (by decide)
  have h0 := auth_error_iff_falsy_key envValid jlRaw (.success "") (.ok (.wellFormed []))
    "machine learning" none "GuardianAPIKey" (by decide) rfl (by decide)
  have ht : pyTruthy (get_guardian_api_key jlRaw .noCredentials) = true :=
    h.2.2 fun s hs => SecretFetch.noConfusion hs
  exact ⟨ht, h.2.1 ht, h0.1 (by decide)⟩

/-- C5: `get_content_preview` is total over its modelled outcomes and: on a
page whose paragraphs are A and B it returns the string A B; on a page with no
paragraphs it returns the fixed no-content placeholder; on a transport failure
it returns a placeholder string containing the failure message; and a
non-empty joined paragraph text is hard-truncated to `max_length`
characters. -/
theorem get_content_preview_behaviour :
    get_content_preview (.ok ["A", "B"]) 1000 = "A B" ∧
    get_content_preview (.ok []) 1000 = "No content is avaiable!" ∧
    (∀ (e : String) (maxLen : Nat),
      ∃ a b, get_content_preview (.requestExn e) maxLen = a ++ e ++ b) ∧
    (∀ (contents : List String) (maxLen : Nat),
      joinSpace (contents.map pyStrip) ≠ "" →
      get_content_preview (.ok contents) maxLen =
        pySlice (joinSpace (contents.map pyStrip)) maxLen) := by
  refine ⟨by decide, rfl, fun e maxLen => ⟨"Content fetching error: ", "", ?_⟩,
    fun contents maxLen hne => ?_⟩
  · simp [get_content_preview]
  · simp only [get_content_preview, hne, if_false, if_neg, not_false_eq_true]

/-- Witness for C5 at concrete inputs, including a truncating call. -/
theorem get_content_preview_behaviour_witness :
    get_content_preview (.ok ["A", "B"]) 1000 = "A B" ∧
    (∃ a b, get_content_preview (.requestExn "Network error!") 1000 = a ++ "Network error!" ++ b) ∧
    get_content_preview (.ok ["Hello", "world"]) 7 =
      pySlice (joinSpace (["Hello", "world"].map pyStrip)) 7 :=
  ⟨get_content_preview_behaviour.1,
    get_content_preview_behaviour.2.2.1 "Network error!" 1000,
    get_content_preview_behaviour.2.2.2 ["Hello", "world"] 7 (by decide)⟩

/-- C6: normalization never emits a record without a url: on the raw input
whose first article has only a title and whose second has a title and the url
https://u, the output is exactly the one record built from the second article;
and every record in any output of `processed_guardian_articles` has a
non-empty `webUrl`. -/
theorem processed_articles_url_invariant :
    processed_guardian_articles envValid jlRaw (.success "key")
        (.ok (.wellFormed [artNoUrl, artWithUrl])) pvFixed (some "machine learning") none =
      [{ webPublicationDate := none, webTitle := some "y", webUrl := "https://u",
         content_preview := "preview text" }] ∧
    (∀ (env : Env) (jl : String → Option PyVal) (fs : SecretFetch) (hr : SearchHttp)
        (pv : String → PreviewOutcome) (t d : Option String) (r : PublishedRecord),
      r ∈ processed_guardian_articles env jl fs hr pv t d → r.webUrl ≠ "") := by
  refine ⟨by decide, ?_⟩
  intro env jl fs hr pv t d r hmem
  unfold processed_guardian_articles at hmem
  cases hx : (extract_guardian_articles env jl fs hr t d).fst with
  | error e =>
    rw [hx] at hmem
    simp at hmem
  | ok articles =>
    rw [hx] at hmem
    simp only [List.mem_filterMap] at hmem
    obtain ⟨a, _, ha⟩ := hmem
    cases hu : a.webUrl with
    | none =>
      rw [hu] at ha
      cases ha
    | some u =>
      rw [hu] at ha
      dsimp only at ha
      by_cases he : u = ""
      · rw [if_pos he] at ha
        cases ha
      · rw [if_neg he] at ha
        injection ha with h
        intro hc
        apply he
        rw [← h] at hc
        exact hc

/-- Witness for C6: the single record emitted for the two-article raw input
has a non-empty url. -/
theorem processed_articles_url_invariant_witness :
    ({ webPublicationDate := none, webTitle := some "y", webUrl := "https://u",
       content_preview := "preview text" } : PublishedRecord).webUrl ≠ "" := by
  refine processed_articles_url_invariant.2 envValid jlRaw (.success "key")
    (.ok (.wellFormed [artNoUrl, artWithUrl])) pvFixed (some "machine learning") none _ ?_
  rw [processed_articles_url_invariant.1]
  exact List.mem_singleton.mpr rfl

/-- C7: whenever `api_request_count` refuses the call, `lambda_handler`
returns the structured rate-limited value with status_code 429 and success
false (no exception), and neither the article-fetch path nor the publisher is
entered. -/
theorem rate_limited_short_circuit (today : String) (stored : Option TrackingData)
    (env : Env) (jl : String → Option PyVal) (fs : SecretFetch) (hr : SearchHttp)
    (pv : String → PreviewOutcome) (send : PublishedRecord → Except PyExn String)
    (h : (api_request_count today stored).permitted = false) :
    lambda_handler today stored env jl fs hr pv send =
      { result := .ok { status_code := 429,
                        message := "API Request calls has been reached for Today.",
                        success := false },
        searchAttempted := false, publishAttempted := false } := by
  unfold lambda_handler
  rw [h]
  rfl

/-- Witness for C7: a stored count of 50 for today denies the budget and the
handler short-circuits. -/
theorem rate_limited_short_circuit_witness :
    lambda_handler "2025-10-12" (some { date := "2025-10-12", count := 50 }) envValid jlRaw
      (.success "key") (.ok (.wellFormed [artWithUrl])) pvFixed sendOk =
      { result := .ok { status_code := 429,
                        message := "API Request calls has been reached for Today.",
                        success := false },
        searchAttempted := false, publishAttempted := false } :=
  rate_limited_short_circuit "2025-10-12" (some { date := "2025-10-12", count := 50 })
    envValid jlRaw (.success "key") (.ok (.wellFormed [artWithUrl])) pvFixed sendOk (by decide)

/-- C8: when the budget permits and the processed article list is empty
(whether from an empty result set or from a soft-failed source error),
`lambda_handler` raises `NoArticlesFoundError` and the publisher is never
entered. -/
theorem no_articles_outcome (today : String) (stored : Option TrackingData) (env : Env)
    (jl : String → Option PyVal) (fs : SecretFetch) (hr : SearchHttp)
    (pv : String → PreviewOutcome) (send : PublishedRecord → Except PyExn String)
    (hb : (api_request_count today stored).permitted = true)
    (ha : processed_guardian_articles env jl fs hr pv env.SEARCH_TERM none = []) :
    lambda_handler today stored env jl fs hr pv send =
      { result := .error (.noArticlesFoundError "No articles found or unable to fetched !"),
        searchAttempted := true, publishAttempted := false } := by
  unfold lambda_handler
  rw [hb]
  simp [ha]

/-- Witness for C8: permitted budget and an empty well-formed result set. -/
theorem no_articles_outcome_witness :
    lambda_handler "2025-10-12" none envValid jlRaw (.success "key") (.ok (.wellFormed []))
      pvFixed sendOk =
      { result := .error (.noArticlesFoundError "No articles found or unable to fetched !"),
        searchAttempted := true, publishAttempted := false } :=
  no_articles_outcome "2025-10-12" none envValid jlRaw (.success "key") (.ok (.wellFormed []))
    pvFixed sendOk (by decide) (by decide)

/-- C9 counterexample: publish of an empty record list with an unset queue
identifier fails with the configuration ValueError of the url check, not with
the input-validation error, because the url check runs first. -/
theorem publish_empty_unset_queue_cex :
    send_to_sqs none sendOk (some []) =
      (.error (.valueError "SQS URL may not be set in environment or not availabe."), 0) :=
  rfl

/-- C9 amended: `send_to_sqs` validates the queue url first: with an unset or
blank `SQS_QUEUE_URL` it always raises the configuration ValueError with no
send attempted, whatever the records argument is (so for empty or None records
the claimed input-validation error is preempted); with a set, non-blank url,
empty-list or None records always raise `NoArticlesFoundError` with no send
attempted; the two exception kinds are distinct. -/
theorem send_to_sqs_validation_order (send : PublishedRecord → Except PyExn String)
    (q : Option String) (arts : Option (List PublishedRecord)) :
    ((q = none ∨ ∃ s, q = some s ∧ pyStrip s = "") →
      send_to_sqs q send arts =
        (.error (.valueError "SQS URL may not be set in environment or not availabe."), 0)) ∧
    (∀ s, q = some s → pyStrip s ≠ "" → (arts = none ∨ arts = some []) →
      send_to_sqs q send arts =
        (.error (.noArticlesFoundError
          "Articles must be a list of dictionaries and must not be empty!"), 0)) ∧
    (∀ m m', PyExn.valueError m ≠ PyExn.noArticlesFoundError m') := by
  refine ⟨fun hq => ?_, fun s hs hblank harts => ?_, fun m m' hc => PyExn.noConfusion hc⟩
  · rcases hq with hq | ⟨s, hq, hblank⟩
    · subst hq
      rfl
    · subst hq
      simp [send_to_sqs, hblank]
  · subst hs
    rcases harts with h | h <;> subst h <;> simp [send_to_sqs, hblank]

/-- Witness for the amended C9: a blank url preempts the record check, and a
valid url with None records raises the input-validation error. -/
theorem send_to_sqs_validation_order_witness :
    send_to_sqs (some "   ") sendOk none =
      (.error (.valueError "SQS URL may not be set in environment or not availabe."), 0) ∧
    send_to_sqs (some "https://sqs.eu-west-2.amazonaws.com/123456789012/MyQueue") sendOk none =
      (.error (.noArticlesFoundError
        "Articles must be a list of dictionaries and must not be empty!"), 0) :=
  ⟨(send_to_sqs_validation_order sendOk (some "   ") none).1
      (Or.inr ⟨"   ", rfl, by decide⟩),
    (send_to_sqs_validation_order sendOk
        (some "https://sqs.eu-west-2.amazonaws.com/123456789012/MyQueue") none).2.1
      "https://sqs.eu-west-2.amazonaws.com/123456789012/MyQueue" rfl (by decide) (Or.inl rfl)⟩

/-- C10: `get_guardian_api_key` is total over its failure modes and on every
failure path (client error, missing AWS credentials, unexpected exception) it
returns a non-empty descriptive string, hence a truthy value: an emptiness
check by the caller never fires on a resolver failure and cannot distinguish a
failure from a valid credential. -/
theorem get_guardian_api_key_failure_truthy (jl : String → Option PyVal)
    (fs : SecretFetch) (h : ∀ s, fs ≠ .success s) :
    (∃ msg, get_guardian_api_key jl fs = .pyStr msg ∧ msg ≠ "") ∧
    pyTruthy (get_guardian_api_key jl fs) = true := by
  cases fs with
  | success s => exact absurd rfl (h s)
  | clientError =>
    exact ⟨⟨_, rfl, by decide⟩,
      show pyTruthy (.pyStr "There has been Client Error: ResourceNotFound") = true by decide⟩
  | noCredentials =>
    exact ⟨⟨_, rfl, by decide⟩,
      show pyTruthy (.pyStr "No credentials has been found.") = true by decide⟩
  | otherError e =>
    have hne : "There has been an unexpected error: " ++ e ≠ "" := by
      intro hc
      have hd : "There has been an unexpected error: ".data ++ e.data = "".data :=
        congrArg String.data hc
      have h1 := congrArg List.length hd
      rw [List.length_append] at h1
      simp at h1
    refine ⟨⟨_, rfl, hne⟩, ?_⟩
    show !(("There has been an unexpected error: " ++ e) == "") = true
    rw [beq_eq_false_iff_ne.mpr hne]
    rfl

/-- Witness for C10 at the client-error failure mode. -/
theorem get_guardian_api_key_failure_truthy_witness :
    (∃ msg, get_guardian_api_key jlRaw .clientError = .pyStr msg ∧ msg ≠ "") ∧
    pyTruthy (get_guardian_api_key jlRaw .clientError) = true :=
  get_guardian_api_key_failure_truthy jlRaw .clientError fun _ hs => SecretFetch.noConfusion hs
